import Mathlib

/-!
Shallow embedding of the core of the tea-diary bot (dmtrmkrv/tea_diary_bot):
the persistence gateway (`app/services/tastings.py`), the decimal validator
(`app/validators.py`), the per-user flow-engine state (`app/main.py`:
draft data held in the aiogram FSM context, callback handlers, dispatch
registrations) and the album debouncer (`app/main.py`).

Conventions of the embedding:
* machine integers are modelled as `Nat`/`Int` (no overflow is reachable in
  the modelled code paths);
* Python `Decimal` values are modelled by their exact rational value `ℚ`;
* fallible operations return `Except`/`Option`;
* the relational store is a list of committed rows, with the unique index
  `ux_tastings_user_seq` (`app/db/models.py`) modelled as a pre-insert check
  that rejects a duplicate `(user_id, seq_no)` pair with an `IntegrityError`.
-/

namespace TeaDiary

/-! ### Persistence gateway: `app/services/tastings.py` -/

/-- A committed `tastings` row, restricted to the columns the sequence-number
logic reads (`user_id`, `seq_no`). -/
structure TastingRow where
  user_id : Nat
  seq_no : Nat
deriving DecidableEq, Repr

/-- The `tastings` table, in commit order. -/
abbrev DB := List TastingRow

/-- The `select Tasting.seq_no ... order_by desc limit 1` of
`_next_seq_for_user`: the maximum committed `seq_no` for `uid`
(`None`/0 when the user has no rows, matching `last_seq or 0`). -/
def maxSeqForUser (db : DB) (uid : Nat) : Nat :=
  match db with
  | [] => 0
  | r :: rest =>
      if r.user_id = uid then max r.seq_no (maxSeqForUser rest uid)
      else maxSeqForUser rest uid

/-- `_next_seq_for_user` (tastings.py lines 17-28): `(last_seq or 0) + 1`. -/
def next_seq_for_user (db : DB) (uid : Nat) : Nat :=
  maxSeqForUser db uid + 1

/-- Insert of a `Tasting` row under the unique index `ux_tastings_user_seq`
(models.py lines 40-41): a duplicate `(user_id, seq_no)` pair raises
`IntegrityError` (modelled as `Except.error ()`), otherwise the row commits. -/
def insertTasting (db : DB) (row : TastingRow) : Except Unit DB :=
  if db.any (fun r => r.user_id = row.user_id ∧ r.seq_no = row.seq_no) then
    Except.error ()
  else
    Except.ok (db ++ [row])

/-- One attempt of the `session.begin()` block of `create_tasting`: compute
the next sequence number from the current table contents and insert.  On
`IntegrityError` the transaction rolls back, leaving the table unchanged. -/
def create_attempt (db : DB) (uid : Nat) : Except Unit (DB × Nat) :=
  match insertTasting db ⟨uid, next_seq_for_user db uid⟩ with
  | Except.ok db2 => Except.ok (db2, next_seq_for_user db uid)
  | Except.error e => Except.error e

/-- tastings.py line 14. -/
def MAX_CREATE_ATTEMPTS : Nat := 2

/-- The retry loop of `create_tasting` (tastings.py lines 38-114), abstracted
over the outcome of each numbered attempt (`attempt n` is the result of the
`n`-th pass through the `session.begin()` block; `Except.error ()` is an
`IntegrityError`).  Mirrors:
`while attempts < _MAX_CREATE_ATTEMPTS: attempts += 1; try ... except
IntegrityError: if attempts >= _MAX_CREATE_ATTEMPTS: raise`. -/
def createTastingLoop {α : Type} (attempt : Nat → Except Unit α)
    (attempts : Nat) : Except Unit α :=
  if _h : attempts < MAX_CREATE_ATTEMPTS then
    match attempt (attempts + 1) with
    | Except.ok v => Except.ok v
    | Except.error e =>
        if attempts + 1 ≥ MAX_CREATE_ATTEMPTS then Except.error e
        else createTastingLoop attempt (attempts + 1)
  else Except.error ()
termination_by MAX_CREATE_ATTEMPTS - attempts
decreasing_by
  simp [MAX_CREATE_ATTEMPTS] at *
  omega

/-- `create_tasting`, entered with `attempts = 0`. -/
def create_tasting {α : Type} (attempt : Nat → Except Unit α) : Except Unit α :=
  createTastingLoop attempt 0

/-- The interleaving of two concurrent `create_tasting` calls for the same
user in which both sessions read the same snapshot before either commits
(the concurrency hazard of the spec): A computes and commits first; B's
insert then violates `ux_tastings_user_seq`, its transaction rolls back, and
its single retry (attempt 2 of `create_tasting`) recomputes the sequence
number against the updated table and inserts. -/
def race_two_creates (db : DB) (uid : Nat) : Except Unit (DB × Nat × Nat) :=
  match insertTasting db ⟨uid, next_seq_for_user db uid⟩ with
  | Except.error e => Except.error e
  | Except.ok db1 =>
    match insertTasting db1 ⟨uid, next_seq_for_user db uid⟩ with
    | Except.ok db2 =>
        Except.ok (db2, next_seq_for_user db uid, next_seq_for_user db uid)
    | Except.error _ =>
      match insertTasting db1 ⟨uid, next_seq_for_user db1 uid⟩ with
      | Except.ok db2 =>
          Except.ok (db2, next_seq_for_user db uid, next_seq_for_user db1 uid)
      | Except.error e => Except.error e

/-- No two committed rows share a `(user_id, seq_no)` pair. -/
def noDupPairs (db : DB) : Prop :=
  db.Pairwise (fun a b => ¬(a.user_id = b.user_id ∧ a.seq_no = b.seq_no))

/-! ### Flow engine: per-user FSM state and draft data (`app/main.py`) -/

/-- The aiogram FSM states of the two questionnaire variants
(`NewTasting`, `InfusionState`, `EffectsScenarios`, `RatingSummary`,
`PhotoFlow`, `QuickNote`, `QuickCancel` in main.py lines 652-717). -/
inductive StepId
  | nt_name | nt_year | nt_region | nt_category | nt_grams | nt_temp_c
  | nt_tasted_at | nt_gear | nt_aroma_dry | nt_aroma_warmed
  | inf_seconds | inf_color | inf_taste | inf_special | inf_body
  | inf_aftertaste
  | es_effects | es_scenarios | rs_rating | rs_summary
  | photos
  | q_name | q_type_pick | q_type_custom | q_grams | q_temp_pick
  | q_gear_pick | q_gear_custom | q_aroma | q_taste | q_eff_pick
  | q_eff_custom | q_rating | q_note
  | qc_confirm
deriving DecidableEq, Repr

/-- One entry of the draft's `new_photos` list, as appended by
`_store_photo_from_file_id` (the raw bytes and filename hint are opaque to
the modelled logic and are omitted). -/
structure PhotoDraft where
  telegram_file_id : String
  telegram_file_unique_id : String
deriving DecidableEq, Repr

/-- One entry of the draft's `infusions` list, as built by
`append_current_infusion_and_prompt`. -/
structure InfusionDraft where
  n : Nat
  seconds : Option Nat := none
  liquor_color : Option String := none
  taste : Option String := none
  special_notes : Option String := none
  body : Option String := none
  aftertaste : Option String := none
deriving DecidableEq, Repr

/-- The per-user draft: the FSM-context data dict, restricted to the keys the
modelled handlers read or write.  Presentation bookkeeping (`live_q_id`,
`progress_msg_id`) is outside the model. -/
structure DraftData where
  user_id : Option Nat := none
  name : Option String := none
  year : Option Int := none
  region : Option String := none
  category : Option String := none
  grams : Option ℚ := none
  temp_c : Option Int := none
  tasted_at : Option String := none
  gear : Option String := none
  aroma_dry : Option String := none
  aroma_dry_sel : List String := []
  aroma_warmed : Option String := none
  effects : List String := []
  scenarios : List String := []
  rating : Option Nat := none
  summary : Option String := none
  infusions : List InfusionDraft := []
  cur_seconds : Option Nat := none
  new_photos : List PhotoDraft := []
  photo_limit : Option Nat := none
  numpad_active : Bool := false
  cancel_return_state : Option StepId := none
deriving DecidableEq, Repr

/-- The engine state of one conversation: the current FSM state
(`state.get_state()`, `none` when no state is set) and the data dict. -/
structure EngineState where
  fsm : Option StepId := none
  data : DraftData := {}
deriving DecidableEq, Repr

/-! #### Full-flow skip callbacks (main.py lines 939-975, 1790-1795,
1890-1900, 1918-1922, 2124-2128) -/

/-- `skip_year_callback`: `update_data(year=None, numpad_active=False)`;
`ask_region_prompt` then sets `NewTasting.region`. -/
def skip_year_callback (s : EngineState) : EngineState :=
  { fsm := some StepId.nt_region,
    data := { s.data with year := none, numpad_active := false } }

/-- `skip_grams_callback`: clears `grams`; `ask_temp_prompt` sets
`NewTasting.temp_c`. -/
def skip_grams_callback (s : EngineState) : EngineState :=
  { fsm := some StepId.nt_temp_c,
    data := { s.data with grams := none, numpad_active := false } }

/-- `skip_temp_callback`: clears `temp_c`; `ask_tasted_at_prompt` sets
`NewTasting.tasted_at`. -/
def skip_temp_callback (s : EngineState) : EngineState :=
  { fsm := some StepId.nt_tasted_at,
    data := { s.data with temp_c := none, numpad_active := false } }

/-- `inf_seconds_skip`: clears `cur_seconds`; `proceed_to_infusion_color`
sets `InfusionState.color`. -/
def inf_seconds_skip (s : EngineState) : EngineState :=
  { fsm := some StepId.inf_color,
    data := { s.data with cur_seconds := none, numpad_active := false } }

/-- `region_skip`: `update_data(region=None)`; asks the category question
and sets `NewTasting.category`. -/
def region_skip (s : EngineState) : EngineState :=
  { fsm := some StepId.nt_category,
    data := { s.data with region := none } }

/-- `tasted_at_skip`: clears `tasted_at` and sets `NewTasting.gear`. -/
def tasted_at_skip (s : EngineState) : EngineState :=
  { fsm := some StepId.nt_gear,
    data := { s.data with tasted_at := none } }

/-- `gear_skip`: clears `gear`; `ask_aroma_dry_call` resets `aroma_dry_sel`
to `[]` and sets `NewTasting.aroma_dry`. -/
def gear_skip (s : EngineState) : EngineState :=
  { fsm := some StepId.nt_aroma_dry,
    data := { s.data with gear := none, aroma_dry_sel := [] } }

/-- Dispatch of the full-flow skip-family callback registrations
(main.py lines 4953-4970), in registration order.  `skip:year`,
`skip:grams`, `skip:temp` and `skip:infsec` are registered behind a
`StateFilter` and only run when the FSM is on the matching step;
`skip:region`, `skip:tasted_at` and `skip:gear` are registered with no
state filter and run in any state.  A callback with no matching handler is
left unhandled (state unchanged). -/
def handle_skip_callback (cb : String) (s : EngineState) : EngineState :=
  if cb = "skip:year" then
    (if s.fsm = some StepId.nt_year then skip_year_callback s else s)
  else if cb = "skip:grams" then
    (if s.fsm = some StepId.nt_grams then skip_grams_callback s else s)
  else if cb = "skip:temp" then
    (if s.fsm = some StepId.nt_temp_c then skip_temp_callback s else s)
  else if cb = "skip:infsec" then
    (if s.fsm = some StepId.inf_seconds then inf_seconds_skip s else s)
  else if cb = "skip:region" then region_skip s
  else if cb = "skip:tasted_at" then tasted_at_skip s
  else if cb = "skip:gear" then gear_skip s
  else s

/-! #### Quick-flow navigation (main.py lines 3014-3099) -/

/-- `quick_back` (main.py lines 3014-3038): branch on the current FSM state;
each `ask_quick_*` helper only re-prompts and sets the predecessor step.
States without a branch (notably `QuickNote.type_pick`, every full-flow
state, and the photo step) fall through with no transition. -/
def quick_back (s : EngineState) : EngineState :=
  match s.fsm with
  | some StepId.q_grams => { s with fsm := some StepId.q_type_pick }
  | some StepId.q_temp_pick => { s with fsm := some StepId.q_grams }
  | some StepId.q_gear_pick => { s with fsm := some StepId.q_temp_pick }
  | some StepId.q_type_custom => { s with fsm := some StepId.q_type_pick }
  | some StepId.q_gear_custom => { s with fsm := some StepId.q_gear_pick }
  | some StepId.q_aroma => { s with fsm := some StepId.q_gear_pick }
  | some StepId.q_taste => { s with fsm := some StepId.q_aroma }
  | some StepId.q_eff_pick => { s with fsm := some StepId.q_taste }
  | some StepId.q_eff_custom => { s with fsm := some StepId.q_eff_pick }
  | some StepId.q_rating => { s with fsm := some StepId.q_eff_pick }
  | some StepId.q_note => { s with fsm := some StepId.q_rating }
  | _ => s

/-- `quick_cancel` (main.py lines 3041-3054): record the current state in
`cancel_return_state` and enter the `QuickCancel.confirm` sub-state; when no
state is set, do nothing. -/
def quick_cancel (s : EngineState) : EngineState :=
  match s.fsm with
  | none => s
  | some st =>
      { fsm := some StepId.qc_confirm,
        data := { s.data with cancel_return_state := some st } }

/-- `quick_cancel_no` (main.py lines 3066-3099): restore the recorded state
(`state.set_state(return_state)`) and re-ask that step's prompt (each
`ask_quick_*` only re-sets the same state); with no recorded state, do
nothing. -/
def quick_cancel_no (s : EngineState) : EngineState :=
  match s.data.cancel_return_state with
  | none => s
  | some st => { s with fsm := some st }

/-! #### Photo step and album debouncer (main.py lines 1305-1428,
1576-1685) -/

/-- main.py line 249 (default `PHOTO_LIMIT`). -/
def MAX_PHOTOS : Nat := 3

/-- One photo event of a media group, as buffered by `photo_add`
(`{"file_id": fid, "file_unique_id": fuid}`). -/
structure AlbumFile where
  file_id : String
  file_unique_id : String
deriving DecidableEq, Repr

/-- The `ALBUM_BUFFER` map key: `(uid, media_group_id)`. -/
structure AlbumKey where
  uid : Nat
  media_group_id : String
deriving DecidableEq, Repr

/-- One `ALBUM_BUFFER` entry: accumulated files of a burst plus a pending
debounce timer (`entry["task"]`). -/
structure AlbumEntry where
  key : AlbumKey
  files : List AlbumFile
  timer_pending : Bool
deriving DecidableEq, Repr

/-- The `ALBUM_BUFFER` map, in insertion order. -/
abbrev AlbumBuffer := List AlbumEntry

/-- `_process_album_entry` (main.py lines 1345-1398), restricted to the
draft mutation: compute remaining capacity from `photo_limit` (default
`MAX_PHOTOS`), take `files[:capacity]`, and append each accepted file to
`new_photos` via `_store_photo_from_file_id` (downloads modelled as
succeeding).  With zero capacity only the progress notice is shown and the
draft is unchanged. -/
def process_album_entry (d : DraftData) (files : List AlbumFile) :
    DraftData :=
  if d.photo_limit.getD MAX_PHOTOS - d.new_photos.length = 0 then d
  else
    { d with new_photos := d.new_photos ++ List.map (fun f => ⟨f.file_id, f.file_unique_id⟩) (files.take (d.photo_limit.getD MAX_PHOTOS - d.new_photos.length)) }

/-- `flush_user_albums` (main.py lines 1412-1428): pop every
`ALBUM_BUFFER` entry whose key belongs to `uid` (cancelling its pending
timer); when `process` is set, run `_process_album_entry` on each popped
entry in buffer order.  With `uid is None` the call returns immediately. -/
def flush_user_albums (uid : Option Nat) (buf : AlbumBuffer)
    (d : DraftData) (process : Bool) : AlbumBuffer × DraftData :=
  match uid with
  | none => (buf, d)
  | some u =>
      (buf.filter (fun e => !(e.key.uid = u)),
       if process then
         (buf.filter (fun e => e.key.uid = u)).foldl
           (fun acc e => process_album_entry acc e.files) d
       else d)

/-- The debounce core of `photo_add` / `_album_timeout_handler`
(main.py lines 1401-1409, 1626-1641) for one `(uid, media_group_id)` key,
as a timed trace: the input is the arrival times (strictly increasing) of
the media-group photos.  The first photo opens the buffer and starts a
timer due at `t + timeout`; a photo arriving strictly before the deadline
is appended and the timer is cancelled and replaced (deadline moves to its
own `t + timeout`); once the deadline passes uninterrupted, the buffer is
popped and flushed as one batch.  The result is the list of flushed
batches, each in arrival order. -/
def debounceFlushes (timeout : Nat) (pending : List AlbumFile)
    (deadline : Nat) : List (Nat × AlbumFile) → List (List AlbumFile)
  | [] => [pending]
  | (t, f) :: rest =>
      if t < deadline then
        debounceFlushes timeout (pending ++ [f]) (t + timeout) rest
      else
        pending :: debounceFlushes timeout [f] (t + timeout) rest

/-- Run the debouncer on a full arrival trace for one key (no buffer open
initially). -/
def runAlbum (timeout : Nat) : List (Nat × AlbumFile) →
    List (List AlbumFile)
  | [] => []
  | (t, f) :: rest => debounceFlushes timeout [f] (t + timeout) rest

/-- All arrivals of a trace fall inside the running debounce window: the
first arrival comes strictly before the current deadline, and each arrival
re-arms the timer for `timeout` after itself. -/
def allWithin (timeout : Nat) : Nat → List (Nat × AlbumFile) → Prop
  | _, [] => True
  | deadline, (t, _) :: rest => t < deadline ∧ allWithin timeout (t + timeout) rest

/-- The photos buffered for user `uid`, across that user's buffer entries in
buffer order, each entry's files in arrival order. -/
def bufferedFiles (uid : Nat) (buf : AlbumBuffer) : List AlbumFile :=
  ((buf.filter (fun e => e.key.uid = uid)).map AlbumEntry.files).flatten

/-- Outcome of a photo-step completion signal. -/
inductive PhotoStepOutcome
  | rejected
  | finalize
deriving DecidableEq, Repr

/-- `photos_done` (main.py lines 1653-1670): rejected (alert only, nothing
mutated) unless the FSM is on `PhotoFlow.photos` and at least one photo has
been collected; otherwise the flow proceeds to `finalize_after_photos`. -/
def photos_done (s : EngineState) : EngineState × PhotoStepOutcome :=
  if s.fsm ≠ some StepId.photos then (s, PhotoStepOutcome.rejected)
  else if s.data.new_photos = [] then (s, PhotoStepOutcome.rejected)
  else (s, PhotoStepOutcome.finalize)

/-- `photos_skip` (main.py lines 1673-1685): rejected (alert only) when any
photo has been collected; otherwise pending album buffers for the user are
discarded (`process=False`), `new_photos` is reset to `[]` and the flow
proceeds to `finalize_after_photos`. -/
def photos_skip (s : EngineState) (buf : AlbumBuffer) :
    (EngineState × AlbumBuffer) × PhotoStepOutcome :=
  if !(s.data.new_photos = []) then ((s, buf), PhotoStepOutcome.rejected)
  else
    (({ s with data := { s.data with new_photos := [] } },
      (flush_user_albums s.data.user_id buf s.data false).1),
     PhotoStepOutcome.finalize)

/-! #### Finalize (main.py lines 1462-1512, 1523-1571) -/

/-- The album flush at the head of `finalize_save` / `finalize_quick_save`:
`await flush_user_albums(data.get("user_id"), state)` followed by re-reading
the data. -/
def finalize_flush (buf : AlbumBuffer) (s : EngineState) :
    AlbumBuffer × DraftData :=
  flush_user_albums s.data.user_id buf s.data true

/-- The draft as handed to `create_tasting` by `finalize_save`: the photo
payload is `list(data.get("new_photos", []))[:MAX_PHOTOS]`. -/
def finalize_payload (d : DraftData) : DraftData :=
  { d with new_photos := d.new_photos.take MAX_PHOTOS }

/-- `finalize_save` (main.py lines 1462-1512), abstracted over the
persistence gateway outcome `create` (an `IntegrityError` surfaced by
`create_tasting` after its bounded retry is `Except.error ()`): flush the
user's album buffers into the draft, hand the draft (photos truncated to
`MAX_PHOTOS`) to `create_tasting`, and only on success clear the FSM state
and data (`state.clear()`).  A raised error propagates before
`state.clear()` is reached, leaving the flushed draft in place.  Returns
the remaining buffer, the conversation state after the call, and the id of
the created record (`none` when creation failed). -/
def finalize_save (create : DraftData → Except Unit Nat)
    (buf : AlbumBuffer) (s : EngineState) :
    AlbumBuffer × EngineState × Option Nat :=
  match create (finalize_payload (finalize_flush buf s).2) with
  | Except.ok tid => ((finalize_flush buf s).1, ⟨none, {}⟩, some tid)
  | Except.error _ =>
      ((finalize_flush buf s).1, ⟨s.fsm, (finalize_flush buf s).2⟩, none)

/-- `b` agrees with `a` on every field except possibly `new_photos`
(the photo list is the only draft key the album flush may touch). -/
def sameExceptPhotos (a b : DraftData) : Prop :=
  b = { a with new_photos := b.new_photos }

/-! ### Decimal validator: `app/validators.py` -/

/-- `Decimal.quantize(Decimal(10) ** -precision, rounding=ROUND_HALF_UP)`:
round to `precision` decimal digits, ties away from zero. -/
def quantizeHalfUp (x : ℚ) (precision : Nat) : ℚ :=
  if 0 ≤ x then
    (⌊x * (10 : ℚ) ^ precision + 1 / 2⌋ : ℚ) / (10 : ℚ) ^ precision
  else
    -((⌊(-x) * (10 : ℚ) ^ precision + 1 / 2⌋ : ℚ) / (10 : ℚ) ^ precision)

/-- `parse_float` (validators.py lines 27-50), with the raw text represented
by the exact rational value of the parsed `Decimal` (comma/dot handling and
unparseable input happen upstream of the modelled arithmetic; a failed range
check, i.e. `raise ValueError`, is `none`).  The value is quantized half-up
to `precision` digits *before* the `[min_value, max_value]` range check, and
the rounded value is what is returned. -/
def parse_float (value : ℚ) (min_value max_value : ℚ) (precision : Nat) :
    Option ℚ :=
  if quantizeHalfUp value precision < min_value ∨
      quantizeHalfUp value precision > max_value then none
  else some (quantizeHalfUp value precision)

end TeaDiary

namespace TeaDiary

/-! ### Helper lemmas for the persistence gateway -/

theorem seq_le_maxSeqForUser {db : DB} {uid : Nat} {r : TastingRow}
    (hmem : r ∈ db) (huid : r.user_id = uid) :
    r.seq_no ≤ maxSeqForUser db uid := by
  induction db with
  | nil => cases hmem
  | cons a rest ih =>
      rcases List.mem_cons.mp hmem with h | h
      · subst h
        simp [maxSeqForUser, huid]
      · have hle := ih h
        by_cases ha : a.user_id = uid
        · simp only [maxSeqForUser, if_pos ha]
          exact le_trans hle (le_max_right _ _)
        · simpa [maxSeqForUser, ha] using hle

theorem any_eq_false_of_gt_maxSeq (db : DB) (uid s : Nat)
    (hgt : maxSeqForUser db uid < s) :
    db.any (fun r => r.user_id = uid ∧ r.seq_no = s) = false := by
  rw [List.any_eq_false]
  intro r hmem
  simp only [decide_eq_true_eq]
  rintro ⟨h1, h2⟩
  have := seq_le_maxSeqForUser hmem h1
  omega

theorem insertTasting_fresh (db : DB) (uid s : Nat)
    (hgt : maxSeqForUser db uid < s) :
    insertTasting db ⟨uid, s⟩ = Except.ok (db ++ [⟨uid, s⟩]) := by
  unfold insertTasting
  rw [any_eq_false_of_gt_maxSeq db uid s hgt]
  simp

theorem maxSeqForUser_append_single (db : DB) (uid s : Nat) :
    maxSeqForUser (db ++ [⟨uid, s⟩]) uid = max (maxSeqForUser db uid) s := by
  induction db with
  | nil => simp [maxSeqForUser]
  | cons a rest ih =>
      by_cases ha : a.user_id = uid
      · show maxSeqForUser (a :: (rest ++ [⟨uid, s⟩])) uid = _
        rw [maxSeqForUser, if_pos ha, ih, maxSeqForUser, if_pos ha]
        omega
      · show maxSeqForUser (a :: (rest ++ [⟨uid, s⟩])) uid = _
        rw [maxSeqForUser, if_neg ha, ih, maxSeqForUser, if_neg ha]

theorem maxSeq_eq_zero_of_no_rows {db : DB} {uid : Nat}
    (h : ∀ r ∈ db, r.user_id ≠ uid) : maxSeqForUser db uid = 0 := by
  induction db with
  | nil => rfl
  | cons a rest ih =>
      have ha := h a (List.mem_cons_self a rest)
      rw [maxSeqForUser, if_neg ha]
      exact ih fun r hr => h r (List.mem_cons_of_mem a hr)

theorem insertTasting_dup (db : DB) (uid s : Nat) (r : TastingRow)
    (hmem : r ∈ db) (h1 : r.user_id = uid) (h2 : r.seq_no = s) :
    insertTasting db ⟨uid, s⟩ = Except.error () := by
  have hex : ∃ x ∈ db, x.user_id = uid ∧ x.seq_no = s := ⟨r, hmem, h1, h2⟩
  simp [insertTasting, List.any_eq_true, hex]

/-- **C1.** For every user, the sequence number assigned to a newly created
tasting equals that user's current maximum `seq_no` plus one (1 when the
user has no records); and in the two-session race in which both creations
for the same user read the same snapshot, the unique index
`ux_tastings_user_seq` rejects the second insert, whose retry then commits
the next value: the two creations yield the two distinct, contiguous values
`max+1` and `max+2`, and no duplicate `(user, seq_no)` pair is ever
committed. -/
theorem c1_seq_assignment_contiguous_unique (db : DB) (uid : Nat)
    (hnd : noDupPairs db) :
    create_attempt db uid =
      Except.ok (db ++ [⟨uid, maxSeqForUser db uid + 1⟩],
        maxSeqForUser db uid + 1) ∧
    ((∀ r ∈ db, r.user_id ≠ uid) →
      create_attempt db uid = Except.ok (db ++ [⟨uid, 1⟩], 1)) ∧
    race_two_creates db uid =
      Except.ok (db ++ [⟨uid, maxSeqForUser db uid + 1⟩] ++
          [⟨uid, maxSeqForUser db uid + 2⟩],
        maxSeqForUser db uid + 1, maxSeqForUser db uid + 2) ∧
    maxSeqForUser db uid + 1 ≠ maxSeqForUser db uid + 2 ∧
    noDupPairs (db ++ [⟨uid, maxSeqForUser db uid + 1⟩] ++
        [⟨uid, maxSeqForUser db uid + 2⟩]) := by
  set m := maxSeqForUser db uid with hm
  have hins1 : insertTasting db ⟨uid, m + 1⟩ =
      Except.ok (db ++ [⟨uid, m + 1⟩]) :=
    insertTasting_fresh db uid (m + 1) (by omega)
  have hattempt : create_attempt db uid =
      Except.ok (db ++ [⟨uid, m + 1⟩], m + 1) := by
    unfold create_attempt next_seq_for_user
    rw [← hm, hins1]
  refine ⟨hattempt, ?_, ?_, by omega, ?_⟩
  · intro hno
    have h0 : m = 0 := maxSeq_eq_zero_of_no_rows hno
    rw [hattempt, h0]
  · have hmax1 : maxSeqForUser (db ++ [⟨uid, m + 1⟩]) uid = m + 1 := by
      rw [maxSeqForUser_append_single, ← hm]
      omega
    have hins2 : insertTasting (db ++ [⟨uid, m + 1⟩]) ⟨uid, m + 1⟩ =
        Except.error () :=
      insertTasting_dup _ uid (m + 1) ⟨uid, m + 1⟩
        (List.mem_append_right _ (List.mem_singleton.mpr rfl)) rfl rfl
    have h211 : m + 1 + 1 = m + 2 := rfl
    have hins3 : insertTasting (db ++ [⟨uid, m + 1⟩]) ⟨uid, m + 2⟩ =
        Except.ok (db ++ [⟨uid, m + 1⟩] ++ [⟨uid, m + 2⟩]) :=
      insertTasting_fresh _ uid (m + 2) (by rw [hmax1]; omega)
    unfold race_two_creates next_seq_for_user
    rw [← hm]
    simp only [hins1, hins2, hmax1, h211, hins3]
  · have hbound : ∀ r ∈ db, r.user_id = uid → r.seq_no ≤ m := by
      intro r hr hu
      rw [hm]
      exact seq_le_maxSeqForUser hr hu
    unfold noDupPairs at hnd ⊢
    rw [List.append_assoc, List.singleton_append, List.pairwise_append]
    refine ⟨hnd, ?_, ?_⟩
    · refine List.pairwise_cons.mpr ⟨?_, List.pairwise_singleton _ _⟩
      intro b hb
      rcases List.mem_singleton.mp hb with rfl
      intro hc
      have h2 := hc.2
      change m + 1 = m + 2 at h2
      omega
    · intro a ha b hb
      rintro ⟨h1, h2⟩
      have hle : a.seq_no ≤ m := by
        apply hbound a ha
        rcases List.mem_cons.mp hb with rfl | hb2
        · exact h1
        · rcases List.mem_singleton.mp hb2 with rfl
          exact h1
      rcases List.mem_cons.mp hb with rfl | hb2
      · change a.seq_no = m + 1 at h2
        omega
      · rcases List.mem_singleton.mp hb2 with rfl
        change a.seq_no = m + 2 at h2
        omega

/-- Witness for C1: on an empty table the race commits exactly the rows
`(0, 1)` and `(0, 2)`. -/
theorem c1_seq_assignment_contiguous_unique_witness :
    race_two_creates [] 0 = Except.ok ([⟨0, 1⟩, ⟨0, 2⟩], 1, 2) := by
  have h := (c1_seq_assignment_contiguous_unique [] 0
    (by simp [noDupPairs])).2.2.1
  simpa [maxSeqForUser] using h

/-- **C2.** `create_tasting` makes at most 2 attempts: when attempt 1 hits a
uniqueness violation (`IntegrityError`), the whole computation is retried
exactly once, and the overall result is attempt 2's result — in particular a
second uniqueness violation is surfaced to the caller (re-raised), not
retried again; a successful first attempt is returned directly. -/
theorem createTastingLoop_one {α : Type} (attempt : Nat → Except Unit α) :
    createTastingLoop attempt 1 = attempt 2 := by
  unfold createTastingLoop
  rw [dif_pos (by norm_num [MAX_CREATE_ATTEMPTS])]
  have h21 : (1 : Nat) + 1 = 2 := rfl
  rw [h21]
  cases h2 : attempt 2 with
  | ok v => rfl
  | error e => simp [MAX_CREATE_ATTEMPTS]

theorem c2_create_retries_once {α : Type} (attempt : Nat → Except Unit α) :
    (∀ v, attempt 1 = Except.ok v →
      create_tasting attempt = Except.ok v) ∧
    (attempt 1 = Except.error () → create_tasting attempt = attempt 2) := by
  constructor
  · intro v h
    unfold create_tasting createTastingLoop
    rw [dif_pos (by norm_num [MAX_CREATE_ATTEMPTS])]
    rw [Nat.zero_add, h]
  · intro h
    unfold create_tasting createTastingLoop
    rw [dif_pos (by norm_num [MAX_CREATE_ATTEMPTS])]
    rw [Nat.zero_add, h]
    show (if 1 ≥ MAX_CREATE_ATTEMPTS then Except.error ()
          else createTastingLoop attempt 1) = attempt 2
    rw [if_neg (by norm_num [MAX_CREATE_ATTEMPTS])]
    exact createTastingLoop_one attempt

/-- Witness for C2: a gateway whose first attempt conflicts and whose second
succeeds yields the second attempt's value. -/
theorem c2_create_retries_once_witness :
    create_tasting
      (fun n => if n = 1 then (Except.error () : Except Unit Nat)
                else Except.ok 7) = Except.ok 7 := by
  rw [(c2_create_retries_once
    (fun n => if n = 1 then (Except.error () : Except Unit Nat)
              else Except.ok 7)).2 rfl]
  norm_num

/-- **C10.** The decimal validator quantizes half-up to the configured
precision before the range check: the raw input 50.04 parses to exactly
1251/25, which lies strictly above `max_value = 50`, yet at precision 1 it
rounds to 50.0 and `parse_float` returns the rounded in-range value 50
instead of failing. -/
theorem c10_parse_float_rounds_before_range_check :
    parse_float (1251 / 25) 0 50 1 = some 50 ∧ (50 : ℚ) < 1251 / 25 := by
  constructor
  · have hfl : ⌊(1251 / 25 : ℚ) * (10 : ℚ) ^ (1 : Nat) + 1 / 2⌋ = 500 := by
      rw [Int.floor_eq_iff]
      norm_num
    have hq : quantizeHalfUp (1251 / 25) 1 = 50 := by
      unfold quantizeHalfUp
      rw [if_pos (by norm_num : (0 : ℚ) ≤ 1251 / 25), hfl]
      norm_num
    unfold parse_float
    rw [hq]
    rw [if_neg (by norm_num)]
  · norm_num

/-! ### Photo step (C4) -/

/-- **C4.** At the photo step, "done" is rejected (state and draft
unchanged) whenever zero photos have been collected, and "skip" is rejected
whenever at least one photo has been collected; the step hands the draft to
persistence only via "done" with at least one photo or "skip" with exactly
zero photos. -/
theorem c4_photo_step_completion (s : EngineState) (buf : AlbumBuffer)
    (h : s.fsm = some StepId.photos) :
    ((photos_done s).2 = PhotoStepOutcome.finalize ↔
      s.data.new_photos ≠ []) ∧
    ((photos_done s).2 = PhotoStepOutcome.rejected → (photos_done s).1 = s) ∧
    ((photos_skip s buf).2 = PhotoStepOutcome.finalize ↔
      s.data.new_photos = []) ∧
    ((photos_skip s buf).2 = PhotoStepOutcome.rejected →
      (photos_skip s buf).1 = (s, buf)) := by
  by_cases hp : s.data.new_photos = [] <;>
    simp [photos_done, photos_skip, h, hp]

/-- Witness for C4: with one collected photo, "done" finalizes. -/
theorem c4_photo_step_completion_witness :
    (photos_done ⟨some StepId.photos,
      { new_photos := [⟨"f1", "u1"⟩] }⟩).2 = PhotoStepOutcome.finalize := by
  exact ((c4_photo_step_completion ⟨some StepId.photos,
    { new_photos := [⟨"f1", "u1"⟩] }⟩ [] rfl).1).mpr (by simp)

/-! ### Skip replay (C5) -/

/-- Counterexample to C5 as stated: with the flow already past the region
step (current step `NewTasting.grams`), replaying `skip:region` is *not* a
no-op — `region_skip` is registered without a state filter, so the handler
re-runs, re-clearing `region` and transitioning the flow back to the
category step. -/
theorem c5_skip_replay_counterexample :
    handle_skip_callback "skip:region"
        ⟨some StepId.nt_grams, { category := some "Oolong" }⟩ ≠
      ⟨some StepId.nt_grams, { category := some "Oolong" }⟩ := by
  decide

/-- **C5 (amended).** Replaying a full-flow "skip" signal when its step is
no longer current is a no-op exactly for the skip callbacks registered
behind a `StateFilter` (year, grams, temperature, infusion-seconds); the
region, tasted-at and gear skip callbacks are registered without a state
filter, so a replayed skip re-runs the handler in any state, re-clearing
the field and forcing the transition to the step after the skipped one. -/
theorem c5_skip_replay (s : EngineState) :
    (s.fsm ≠ some StepId.nt_year →
      handle_skip_callback "skip:year" s = s) ∧
    (s.fsm ≠ some StepId.nt_grams →
      handle_skip_callback "skip:grams" s = s) ∧
    (s.fsm ≠ some StepId.nt_temp_c →
      handle_skip_callback "skip:temp" s = s) ∧
    (s.fsm ≠ some StepId.inf_seconds →
      handle_skip_callback "skip:infsec" s = s) ∧
    handle_skip_callback "skip:region" s =
      ⟨some StepId.nt_category, { s.data with region := none }⟩ ∧
    handle_skip_callback "skip:tasted_at" s =
      ⟨some StepId.nt_gear, { s.data with tasted_at := none }⟩ ∧
    handle_skip_callback "skip:gear" s =
      ⟨some StepId.nt_aroma_dry,
        { s.data with gear := none, aroma_dry_sel := [] }⟩ := by
  refine ⟨?_, ?_, ?_, ?_, ?_, ?_, ?_⟩ <;>
    first
      | (intro h
         simp [handle_skip_callback, h])
      | simp [handle_skip_callback, region_skip, tasted_at_skip, gear_skip]

/-- Witness for C5 (amended): a replayed, state-filtered `skip:year` while
the flow is on the category step is dropped by the dispatcher. -/
theorem c5_skip_replay_witness :
    handle_skip_callback "skip:year" ⟨some StepId.nt_category, {}⟩ =
      ⟨some StepId.nt_category, {}⟩ :=
  (c5_skip_replay ⟨some StepId.nt_category, {}⟩).1 (by decide)

/-! ### Back navigation (C8) -/

/-- Counterexample to C8 as stated: the quick flow's type-pick step is not
the first step (the name step precedes it), yet a back signal there is a
no-op — it does not return the flow to the name step (`q_type_kb` is built
with `can_back=False` and `quick_back` has no branch for
`QuickNote.type_pick`). -/
theorem c8_back_counterexample :
    quick_back ⟨some StepId.q_type_pick, {}⟩ =
        ⟨some StepId.q_type_pick, {}⟩ ∧
    (quick_back ⟨some StepId.q_type_pick, {}⟩).fsm ≠ some StepId.q_name := by
  decide

/-- **C8 (amended).** Back navigation exists only in the quick variant and
only from the grams step onward: each of grams, temp-pick, gear-pick,
type-custom, gear-custom, aroma, taste, effects-pick, effect-custom, rating
and note returns to its predecessor with every draft field untouched
(values preserved for re-edit); the quick type-pick step (the step right
after the first) and the photo step have no back transition, and the full
variant has no back handling at all — a `q:back` press in any full-flow
state leaves the state unchanged. -/
theorem c8_back_support (d : DraftData) :
    quick_back ⟨some StepId.q_grams, d⟩ = ⟨some StepId.q_type_pick, d⟩ ∧
    quick_back ⟨some StepId.q_temp_pick, d⟩ = ⟨some StepId.q_grams, d⟩ ∧
    quick_back ⟨some StepId.q_gear_pick, d⟩ = ⟨some StepId.q_temp_pick, d⟩ ∧
    quick_back ⟨some StepId.q_type_custom, d⟩ =
      ⟨some StepId.q_type_pick, d⟩ ∧
    quick_back ⟨some StepId.q_gear_custom, d⟩ =
      ⟨some StepId.q_gear_pick, d⟩ ∧
    quick_back ⟨some StepId.q_aroma, d⟩ = ⟨some StepId.q_gear_pick, d⟩ ∧
    quick_back ⟨some StepId.q_taste, d⟩ = ⟨some StepId.q_aroma, d⟩ ∧
    quick_back ⟨some StepId.q_eff_pick, d⟩ = ⟨some StepId.q_taste, d⟩ ∧
    quick_back ⟨some StepId.q_eff_custom, d⟩ =
      ⟨some StepId.q_eff_pick, d⟩ ∧
    quick_back ⟨some StepId.q_rating, d⟩ = ⟨some StepId.q_eff_pick, d⟩ ∧
    quick_back ⟨some StepId.q_note, d⟩ = ⟨some StepId.q_rating, d⟩ ∧
    quick_back ⟨some StepId.q_type_pick, d⟩ =
      ⟨some StepId.q_type_pick, d⟩ ∧
    quick_back ⟨some StepId.photos, d⟩ = ⟨some StepId.photos, d⟩ ∧
    quick_back ⟨some StepId.nt_name, d⟩ = ⟨some StepId.nt_name, d⟩ ∧
    quick_back ⟨some StepId.nt_year, d⟩ = ⟨some StepId.nt_year, d⟩ ∧
    quick_back ⟨some StepId.nt_region, d⟩ = ⟨some StepId.nt_region, d⟩ ∧
    quick_back ⟨some StepId.nt_category, d⟩ =
      ⟨some StepId.nt_category, d⟩ ∧
    quick_back ⟨some StepId.nt_grams, d⟩ = ⟨some StepId.nt_grams, d⟩ ∧
    quick_back ⟨some StepId.nt_temp_c, d⟩ = ⟨some StepId.nt_temp_c, d⟩ ∧
    quick_back ⟨some StepId.nt_tasted_at, d⟩ =
      ⟨some StepId.nt_tasted_at, d⟩ ∧
    quick_back ⟨some StepId.nt_gear, d⟩ = ⟨some StepId.nt_gear, d⟩ ∧
    quick_back ⟨some StepId.nt_aroma_dry, d⟩ =
      ⟨some StepId.nt_aroma_dry, d⟩ ∧
    quick_back ⟨some StepId.nt_aroma_warmed, d⟩ =
      ⟨some StepId.nt_aroma_warmed, d⟩ :=
  ⟨rfl, rfl, rfl, rfl, rfl, rfl, rfl, rfl, rfl, rfl, rfl, rfl, rfl, rfl,
   rfl, rfl, rfl, rfl, rfl, rfl, rfl, rfl, rfl⟩

/-! ### Album debounce (C6) -/

theorem debounceFlushes_allWithin (timeout : Nat)
    (events : List (Nat × AlbumFile)) :
    ∀ (pending : List AlbumFile) (deadline : Nat),
      allWithin timeout deadline events →
      debounceFlushes timeout pending deadline events =
        [pending ++ events.map Prod.snd] := by
  induction events with
  | nil =>
      intro pending deadline _
      simp [debounceFlushes]
  | cons e rest ih =>
      obtain ⟨t, f⟩ := e
      intro pending deadline hw
      rw [debounceFlushes, if_pos hw.1, ih _ _ hw.2]
      simp

theorem process_album_entry_exact (d : DraftData) (files : List AlbumFile)
    (limit : Nat) (hlim : d.photo_limit = some limit)
    (hcap : d.new_photos.length + files.length ≤ limit) :
    process_album_entry d files =
      { d with new_photos := d.new_photos ++
          files.map (fun f => ⟨f.file_id, f.file_unique_id⟩) } := by
  have hG : d.photo_limit.getD MAX_PHOTOS = limit := by rw [hlim]; rfl
  unfold process_album_entry
  rw [hG]
  by_cases hc : limit - d.new_photos.length = 0
  · have hf : files = [] := List.eq_nil_of_length_eq_zero (by omega)
    subst hf
    rw [if_pos hc]
    simp
  · rw [if_neg hc]
    have ht : files.take (limit - d.new_photos.length) = files :=
      List.take_of_length_le (by omega)
    rw [ht]

/-- **C6.** For the album debouncer: every photo arriving for an open
buffer strictly before the pending deadline cancels and replaces the timer,
so a trace of photos of one batch-id that all fall within the running
debounce window produces exactly one flush containing all of them in
arrival order, while two photos of the same batch-id separated by at least
the window produce two separate flushes; a flushed batch is appended to the
draft's photo list in arrival order (up to remaining capacity). -/
theorem c6_album_debounce (timeout : Nat) :
    (∀ (t : Nat) (f : AlbumFile) (events : List (Nat × AlbumFile)),
      allWithin timeout (t + timeout) events →
      runAlbum timeout ((t, f) :: events) = [f :: events.map Prod.snd]) ∧
    (∀ (t1 t2 : Nat) (f1 f2 : AlbumFile), t1 + timeout ≤ t2 →
      runAlbum timeout [(t1, f1), (t2, f2)] = [[f1], [f2]]) ∧
    (∀ (d : DraftData) (files : List AlbumFile) (limit : Nat),
      d.photo_limit = some limit →
      d.new_photos.length + files.length ≤ limit →
      process_album_entry d files =
        { d with new_photos := d.new_photos ++
            files.map (fun f => ⟨f.file_id, f.file_unique_id⟩) }) := by
  refine ⟨?_, ?_, ?_⟩
  · intro t f events hw
    rw [runAlbum, debounceFlushes_allWithin timeout events [f] (t + timeout) hw]
    simp
  · intro t1 t2 f1 f2 hgap
    rw [runAlbum, debounceFlushes, if_neg (by omega), debounceFlushes]
  · intro d files limit hlim hcap
    exact process_album_entry_exact d files limit hlim hcap

/-- Witness for C6: three photos at times 0, 1, 2 with a 2-unit window
flush once with all three in order; photos at times 0 and 5 flush twice. -/
theorem c6_album_debounce_witness :
    runAlbum 2 [(0, ⟨"a", "ua"⟩), (1, ⟨"b", "ub"⟩), (2, ⟨"c", "uc"⟩)] =
      [[⟨"a", "ua"⟩, ⟨"b", "ub"⟩, ⟨"c", "uc"⟩]] ∧
    runAlbum 2 [(0, ⟨"a", "ua"⟩), (5, ⟨"b", "ub"⟩)] =
      [[⟨"a", "ua"⟩], [⟨"b", "ub"⟩]] := by
  constructor
  · exact (c6_album_debounce 2).1 0 ⟨"a", "ua"⟩
      [(1, ⟨"b", "ub"⟩), (2, ⟨"c", "uc"⟩)]
      ⟨by norm_num, by norm_num, trivial⟩
  · exact (c6_album_debounce 2).2.1 0 5 ⟨"a", "ua"⟩ ⟨"b", "ub"⟩ (by norm_num)

/-! ### Finalize flush and failure handling (C3, C7) -/

theorem sameExceptPhotos_trans {a b c : DraftData}
    (h1 : sameExceptPhotos a b) (h2 : sameExceptPhotos b c) :
    sameExceptPhotos a c := by
  unfold sameExceptPhotos at *
  rw [h2, h1]

theorem process_album_entry_preserves (d : DraftData)
    (files : List AlbumFile) :
    sameExceptPhotos d (process_album_entry d files) := by
  unfold sameExceptPhotos process_album_entry
  split
  · rfl
  · rfl

theorem process_album_entry_extends (d : DraftData)
    (files : List AlbumFile) :
    ∃ extra, (process_album_entry d files).new_photos =
      d.new_photos ++ extra := by
  unfold process_album_entry
  split
  · exact ⟨[], by simp⟩
  · exact ⟨_, rfl⟩

theorem foldl_process_preserves (entries : List AlbumEntry) :
    ∀ d : DraftData,
      sameExceptPhotos d (entries.foldl
        (fun acc e => process_album_entry acc e.files) d) ∧
      ∃ extra, (entries.foldl
        (fun acc e => process_album_entry acc e.files) d).new_photos =
          d.new_photos ++ extra := by
  induction entries with
  | nil =>
      intro d
      exact ⟨rfl, [], by simp⟩
  | cons e rest ih =>
      intro d
      rw [List.foldl_cons]
      obtain ⟨hs, extra2, hx⟩ := ih (process_album_entry d e.files)
      obtain ⟨extra1, hx1⟩ := process_album_entry_extends d e.files
      refine ⟨sameExceptPhotos_trans
        (process_album_entry_preserves d e.files) hs,
        extra1 ++ extra2, ?_⟩
      rw [hx, hx1, List.append_assoc]

theorem foldl_process_exact (entries : List AlbumEntry) :
    ∀ (d : DraftData) (limit : Nat), d.photo_limit = some limit →
      d.new_photos.length +
        ((entries.map AlbumEntry.files).flatten).length ≤ limit →
      (entries.foldl
        (fun acc e => process_album_entry acc e.files) d).new_photos =
        d.new_photos ++ ((entries.map AlbumEntry.files).flatten).map
          (fun f => ⟨f.file_id, f.file_unique_id⟩) := by
  induction entries with
  | nil =>
      intro d limit hlim hcap
      simp
  | cons e rest ih =>
      intro d limit hlim hcap
      simp only [List.map_cons, List.flatten_cons, List.length_append]
        at hcap
      rw [List.foldl_cons]
      rw [process_album_entry_exact d e.files limit hlim (by omega)]
      have hlim2 : ({ d with new_photos := d.new_photos ++ e.files.map (fun f => ⟨f.file_id, f.file_unique_id⟩) } : DraftData).photo_limit = some limit := hlim
      rw [ih _ limit hlim2 (by
        simp only [List.length_append, List.length_map]
        omega)]
      simp [List.append_assoc]

/-- **C7.** When the user finalizes, every photo still buffered in the
album debouncer for that user is force-flushed before persistence: every
buffer entry of the user's keys is popped (its pending timer cancelled),
and — whenever the buffered photos fit the remaining capacity — they are
all appended to the draft's photo list in buffer/arrival order before the
draft (photos truncated to `MAX_PHOTOS`) is handed to `create_tasting`, so
no buffered photo is silently dropped at finalize. -/
theorem c7_finalize_force_flush (buf : AlbumBuffer) (s : EngineState)
    (u : Nat) (hu : s.data.user_id = some u)
    (hlim : s.data.photo_limit = some MAX_PHOTOS)
    (hcap : s.data.new_photos.length +
      (bufferedFiles u buf).length ≤ MAX_PHOTOS) :
    (∀ e ∈ (finalize_flush buf s).1, e.key.uid ≠ u) ∧
    (finalize_payload (finalize_flush buf s).2).new_photos =
      s.data.new_photos ++ (bufferedFiles u buf).map
        (fun f => ⟨f.file_id, f.file_unique_id⟩) := by
  have hflush : finalize_flush buf s =
      (buf.filter (fun e => !(e.key.uid = u)),
       (buf.filter (fun e => e.key.uid = u)).foldl
         (fun acc e => process_album_entry acc e.files) s.data) := by
    unfold finalize_flush flush_user_albums
    rw [hu]
    rfl
  have hd1 : (finalize_flush buf s).1 =
      buf.filter (fun e => !(e.key.uid = u)) := by rw [hflush]
  have hd2 : (finalize_flush buf s).2 =
      (buf.filter (fun e => e.key.uid = u)).foldl
        (fun acc e => process_album_entry acc e.files) s.data := by
    rw [hflush]
  simp only [bufferedFiles] at hcap
  constructor
  · intro e he
    rw [hd1] at he
    simp only [List.mem_filter, Bool.not_eq_true',
      decide_eq_false_iff_not] at he
    exact he.2
  · have hexact := foldl_process_exact
      (buf.filter (fun e => e.key.uid = u)) s.data MAX_PHOTOS hlim hcap
    have hpay : (finalize_payload (finalize_flush buf s).2).new_photos =
        ((finalize_flush buf s).2.new_photos).take MAX_PHOTOS := rfl
    rw [hpay, hd2, hexact]
    simp only [bufferedFiles]
    refine List.take_of_length_le ?_
    simp only [List.length_append, List.length_map]
    omega

/-- Witness for C7: a single buffered album photo is flushed into the
otherwise-empty draft and survives into the persistence payload. -/
theorem c7_finalize_force_flush_witness :
    (finalize_payload (finalize_flush
        [⟨⟨1, "g"⟩, [⟨"f1", "u1"⟩], true⟩]
        ⟨some StepId.photos,
          { user_id := some 1, photo_limit := some 3 }⟩).2).new_photos =
      [⟨"f1", "u1"⟩] := by
  have h := (c7_finalize_force_flush
      [⟨⟨1, "g"⟩, [⟨"f1", "u1"⟩], true⟩]
      ⟨some StepId.photos, { user_id := some 1, photo_limit := some 3 }⟩
      1 rfl rfl (by decide)).2
  simpa [bufferedFiles] using h

theorem finalize_flush_preserves (buf : AlbumBuffer) (s : EngineState) :
    sameExceptPhotos s.data (finalize_flush buf s).2 ∧
    ∃ extra, (finalize_flush buf s).2.new_photos =
      s.data.new_photos ++ extra := by
  unfold finalize_flush flush_user_albums
  cases hu : s.data.user_id with
  | none => exact ⟨rfl, [], by simp⟩
  | some u => exact foldl_process_preserves _ s.data

/-- Counterexample to C3 as stated: with one photo pending in the album
buffer, a finalize whose persistence call fails leaves the draft *changed*
— the buffered photo was flushed (appended) into the draft's photo list
before `create_tasting` was attempted. -/
theorem c3_draft_counterexample :
    (finalize_save (fun _ => Except.error ())
        [⟨⟨1, "g"⟩, [⟨"f1", "u1"⟩], true⟩]
        ⟨some StepId.photos,
          { user_id := some 1, photo_limit := some 3 }⟩).2.1.data ≠
      ({ user_id := some 1, photo_limit := some 3 } : DraftData) := by
  decide

/-- **C3 (amended).** The draft store is cleared only when `create_tasting`
returns successfully.  For every execution in which `create_tasting` raises,
the FSM state and every draft field except the photo list are left exactly
as they were, and the photo list is only ever extended (by the album-buffer
photos flushed into the draft before the persistence attempt) — nothing
entered is lost, so the user can retry the finalize with the retained
draft. -/
theorem c3_draft_retained_on_failure
    (create : DraftData → Except Unit Nat) (buf : AlbumBuffer)
    (s : EngineState) :
    (∀ tid, create (finalize_payload (finalize_flush buf s).2) =
        Except.ok tid →
      finalize_save create buf s =
        ((finalize_flush buf s).1, ⟨none, {}⟩, some tid)) ∧
    (create (finalize_payload (finalize_flush buf s).2) =
        Except.error () →
      finalize_save create buf s =
        ((finalize_flush buf s).1, ⟨s.fsm, (finalize_flush buf s).2⟩,
          none) ∧
      (finalize_save create buf s).2.1.fsm = s.fsm ∧
      sameExceptPhotos s.data (finalize_save create buf s).2.1.data ∧
      ∃ extra, (finalize_save create buf s).2.1.data.new_photos =
        s.data.new_photos ++ extra) := by
  constructor
  · intro tid h
    unfold finalize_save
    rw [h]
  · intro h
    have hsave : finalize_save create buf s =
        ((finalize_flush buf s).1, ⟨s.fsm, (finalize_flush buf s).2⟩,
          none) := by
      unfold finalize_save
      rw [h]
    obtain ⟨hpres, extra, hext⟩ := finalize_flush_preserves buf s
    refine ⟨hsave, by rw [hsave], ?_, ?_⟩
    · rw [hsave]
      exact hpres
    · rw [hsave]
      exact ⟨extra, hext⟩

/-- Witness for C3 (amended): with no pending buffer and a failing gateway,
finalize returns with the conversation state fully intact. -/
theorem c3_draft_retained_on_failure_witness :
    finalize_save (fun _ => Except.error ()) []
      ⟨some StepId.photos,
        { user_id := some 1, photo_limit := some 3 }⟩ =
      ([], ⟨some StepId.photos,
        { user_id := some 1, photo_limit := some 3 }⟩, none) := by
  have h := ((c3_draft_retained_on_failure (fun _ => Except.error ()) []
      ⟨some StepId.photos,
        { user_id := some 1, photo_limit := some 3 }⟩).2 rfl).1
  rw [h]
  rfl

/-! ### Cancel round trip (C9) -/

/-- **C9.** Invoking cancel from any step `K` of the quick flow and then
declining the confirmation restores the engine to exactly step `K` with
every previously entered draft field value intact (only the
`cancel_return_state` bookkeeping key, which records `K` itself, is
written). -/
theorem c9_cancel_decline_roundtrip (K : StepId) (d : DraftData) :
    (quick_cancel_no (quick_cancel ⟨some K, d⟩)).fsm = some K ∧
    (quick_cancel_no (quick_cancel ⟨some K, d⟩)).data =
      { d with cancel_return_state := some K } ∧
    (quick_cancel_no (quick_cancel ⟨some K, d⟩)).data.name = d.name ∧
    (quick_cancel_no (quick_cancel ⟨some K, d⟩)).data.year = d.year ∧
    (quick_cancel_no (quick_cancel ⟨some K, d⟩)).data.region = d.region ∧
    (quick_cancel_no (quick_cancel ⟨some K, d⟩)).data.category =
      d.category ∧
    (quick_cancel_no (quick_cancel ⟨some K, d⟩)).data.grams = d.grams ∧
    (quick_cancel_no (quick_cancel ⟨some K, d⟩)).data.temp_c = d.temp_c ∧
    (quick_cancel_no (quick_cancel ⟨some K, d⟩)).data.tasted_at =
      d.tasted_at ∧
    (quick_cancel_no (quick_cancel ⟨some K, d⟩)).data.gear = d.gear ∧
    (quick_cancel_no (quick_cancel ⟨some K, d⟩)).data.aroma_dry =
      d.aroma_dry ∧
    (quick_cancel_no (quick_cancel ⟨some K, d⟩)).data.aroma_warmed =
      d.aroma_warmed ∧
    (quick_cancel_no (quick_cancel ⟨some K, d⟩)).data.effects = d.effects ∧
    (quick_cancel_no (quick_cancel ⟨some K, d⟩)).data.scenarios =
      d.scenarios ∧
    (quick_cancel_no (quick_cancel ⟨some K, d⟩)).data.rating = d.rating ∧
    (quick_cancel_no (quick_cancel ⟨some K, d⟩)).data.summary = d.summary ∧
    (quick_cancel_no (quick_cancel ⟨some K, d⟩)).data.infusions =
      d.infusions ∧
    (quick_cancel_no (quick_cancel ⟨some K, d⟩)).data.new_photos =
      d.new_photos :=
  ⟨rfl, rfl, rfl, rfl, rfl, rfl, rfl, rfl, rfl, rfl, rfl, rfl, rfl, rfl,
   rfl, rfl, rfl, rfl⟩

end TeaDiary
